import Mathlib

/-!
Shallow embedding of `src/slash.py` (easy_discord_slash): the `CommandCreator`
registry, its registration decorators, the argument-binding/conversion wrapper
generated for each command, the error policy, and `generate_help`.

Python dictionaries are modelled as association lists with Python's
assignment semantics (replace in place, append if absent).  Python exceptions
are modelled with `Except String`; `str(error)` is the carried message.
-/

set_option autoImplicit false

namespace Slash

/-- Association-list lookup: Python `d[k]` / `k in d` (first, and only, match). -/
def assocLookup {α β : Type} [DecidableEq α] : List (α × β) → α → Option β
  | [], _ => none
  | (k', v) :: rest, k => if k' = k then some v else assocLookup rest k

/-- Python dict assignment `d[k] = v`: replace the value at an existing key,
otherwise append the new pair. -/
def assocInsert {α β : Type} [DecidableEq α] : List (α × β) → α → β → List (α × β)
  | [], k, v => [(k, v)]
  | (k', v') :: rest, k, v =>
    if k' = k then (k, v) :: rest else (k', v') :: assocInsert rest k v

/-- Python `k in d`. -/
def assocMem {α β : Type} [DecidableEq α] (d : List (α × β)) (k : α) : Bool :=
  (assocLookup d k).isSome

/-- A Python type object, as used for parameter declarations and as a key of
the converter dictionary.  `named` covers types such as `discord.Interaction`. -/
inductive PyType where
  | int
  | str
  | named (n : String)
  deriving DecidableEq, Repr

/-- `t.__name__`. -/
def PyType.tyName : PyType → String
  | .int => "int"
  | .str => "str"
  | .named n => n

/-- A key of the `self.converters` dictionary.  `register_converter` stores
type objects (`typeKey`); the wrapper's membership test `name_ in self.converters`
probes with a parameter-name string (`strKey`); `emptyKey` is the sentinel
`inspect.Parameter.empty` of an unannotated parameter.  Python `==` between
values of different kinds is `False`, which the derived equality captures. -/
inductive DictKey where
  | typeKey (t : PyType)
  | strKey (s : String)
  | emptyKey
  deriving DecidableEq, Repr

/-- The invocation context handed to a wrapper: a `discord.Interaction`
(carrying `response.is_done()`) or a message `commands.Context`. -/
inductive Ctx where
  | interaction (isDone : Bool)
  | messageCtx
  deriving DecidableEq, Repr

/-- A Python runtime value, as far as this layer inspects one. -/
inductive PyVal where
  | int (n : Int)
  | str (s : String)
  | ctxObj (c : Ctx)
  | pyNone
  deriving DecidableEq, Repr

/-- Python `str(v)` / f-string interpolation of a value. -/
def pyStr : PyVal → String
  | .int n => toString n
  | .str s => s
  | .ctxObj _ => "<context>"
  | .pyNone => "None"

/-- One entry of `inspect.signature(func).parameters`: name, annotated type
(`none` = `inspect.Parameter.empty`), default (`none` = no default). -/
structure Param where
  name : String
  annot : Option PyType
  default : Option PyVal
  deriving DecidableEq, Repr

/-- A user handler: receives the bound positional values (context first) and
either sends some messages or raises (message of the exception). -/
abbrev Handler := List PyVal → Except String (List String)

/-- A registered converter: may itself raise. -/
abbrev Conv := PyVal → Except String PyVal

/-- A custom error handler installed via `set_error_handler`: receives
`(str(error), ctx)`; its own failure is an exception. -/
abbrev ErrHandler := String → Ctx → Except String (List String)

/-- Truthiness of an optional Python string: `None` and `""` are falsy. -/
def descTruthy : Option String → Bool
  | none => false
  | some s => !s.isEmpty

inductive CmdKind where
  | slash
  | message
  deriving DecidableEq, Repr

/-- One value of the `self.commands` dict.  `aliases = none` models the slash
record, whose dict has no `"aliases"` key; a message record stores
`some (aliases or [])`.  `params` is `inspect.signature(func).parameters`. -/
structure CommandRecord where
  kind : CmdKind
  description : Option String
  aliases : Option (List String)
  params : List Param
  func : Handler

/-- The mutable state of a `CommandCreator` instance. -/
structure Registry where
  commands : List (String × CommandRecord)
  converters : List (DictKey × Conv)
  errorHandler : Option ErrHandler

/-- `register_converter(type_, converter)`: `self.converters[type_] = converter`. -/
def register_converter (st : Registry) (t : PyType) (conv : Conv) : Registry :=
  { st with converters := assocInsert st.converters (.typeKey t) conv }

/-- `set_error_handler(handler)`: `self.error_handler = handler`. -/
def set_error_handler (st : Registry) (h : ErrHandler) : Registry :=
  { st with errorHandler := some h }

/-- `_handle_error(error, ctx)`: a custom handler, when installed, is called
unconditionally (its own failure is not caught); otherwise the default policy
replies `"Error: <message>"`, suppressed for an interaction that `is_done()`. -/
def handleError (st : Registry) (errMsg : String) (ctx : Ctx) :
    Except String (List String) :=
  match st.errorHandler with
  | some h => h errMsg ctx
  | none =>
    match ctx with
    | .interaction isDone =>
      if isDone then .ok [] else .ok ["Error: " ++ errMsg]
    | .messageCtx => .ok ["Error: " ++ errMsg]

/-- `sig.bind(ctx, *args)` followed by `bound.apply_defaults()`: match the
positional values against the declared parameters in order, filling declared
defaults for trailing omitted optionals; raise on arity mismatch.  Returns
`bound.arguments` as an ordered name/value list. -/
def bindArgs : List Param → List PyVal → Except String (List (String × PyVal))
  | [], [] => .ok []
  | [], _ :: _ => .error "too many positional arguments"
  | p :: ps, a :: as => do
    let rest ← bindArgs ps as
    .ok ((p.name, a) :: rest)
  | p :: ps, [] =>
    match p.default with
    | some d => do
      let rest ← bindArgs ps []
      .ok ((p.name, d) :: rest)
    | none => .error ("missing a required argument: " ++ p.name)

/-- `inspect.Parameter.annotation` as a converter-dict key: the declared type
object, or the `inspect.Parameter.empty` sentinel when unannotated. -/
def keyOfAnnot : Option PyType → DictKey
  | some t => .typeKey t
  | none => .emptyKey

/-- One iteration of the wrapper's converter loop, for parameter `p`:
`if name_ in self.converters:` then
`bound.arguments[name_] = self.converters[param.annotation](bound.arguments[name_])`.
Note the membership test uses the parameter NAME while the subscript uses the
ANNOTATION, exactly as the source does. -/
def convertOne (convs : List (DictKey × Conv)) (p : Param)
    (bound : List (String × PyVal)) : Except String (List (String × PyVal)) :=
  if assocMem convs (.strKey p.name) then
    match assocLookup bound p.name with
    | none => .error ("KeyError: " ++ p.name)
    | some value =>
      match assocLookup convs (keyOfAnnot p.annot) with
      | none => .error "KeyError: parameter annotation not in converters"
      | some conv => do
        let newVal ← conv value
        .ok (assocInsert bound p.name newVal)
  else
    .ok bound

/-- The wrapper's `for name_, param in sig.parameters.items():` loop. -/
def applyConverters (convs : List (DictKey × Conv)) :
    List Param → List (String × PyVal) → Except String (List (String × PyVal))
  | [], bound => .ok bound
  | p :: ps, bound => do
    let bound2 ← convertOne convs p bound
    applyConverters convs ps bound2

/-- The body of the generated wrapper's `try:` block: bind, convert, then
`await func(*bound.args, **bound.kwargs)`. -/
def runInvocation (st : Registry) (ps : List Param) (f : Handler) (ctx : Ctx)
    (args : List PyVal) : Except String (List String) := do
  let bound ← bindArgs ps (PyVal.ctxObj ctx :: args)
  let bound2 ← applyConverters st.converters ps bound
  f (bound2.map Prod.snd)

/-- The generated wrapper (identical shape for slash and message commands):
any exception from binding, conversion or the handler body is caught and
routed to `_handle_error`; an exception raised by `_handle_error` itself
escapes. -/
def wrapper (st : Registry) (ps : List Param) (f : Handler) (ctx : Ctx)
    (args : List PyVal) : Except String (List String) :=
  match runInvocation st ps f ctx args with
  | .ok sends => .ok sends
  | .error e => handleError st e ctx

/-- `slash_command(name, description)` applied to a handler: the decorator
factory first raises `ValueError` when the description is falsy (empty or
absent), before anything is registered; otherwise the decorator stores
`{"type": "slash", "description": ..., "func": ...}` under `name`. -/
def slash_command (st : Registry) (nm : String) (description : Option String)
    (ps : List Param) (f : Handler) : Except String Registry :=
  if !descTruthy description then
    .error "Description is required for slash commands."
  else
    .ok { st with
          commands := assocInsert st.commands nm ⟨.slash, description, none, ps, f⟩ }

/-- The registry state observable after calling `slash_command`: on a raise the
exception propagates to the caller and `self.commands` is untouched. -/
def slash_command_state (st : Registry) (nm : String) (description : Option String)
    (ps : List Param) (f : Handler) : Registry :=
  match slash_command st nm description ps f with
  | .ok st2 => st2
  | .error _ => st

/-- `message_command(name, aliases, description)` applied to a handler: no
validation; stores `{"type": "message", "aliases": aliases or [], ...}`. -/
def message_command (st : Registry) (nm : String) (aliases : Option (List String))
    (description : Option String) (ps : List Param) (f : Handler) : Registry :=
  { st with
    commands := assocInsert st.commands nm ⟨.message, description, some (aliases.getD []), ps, f⟩ }

/-- The `Description:` line of `generate_help`, emitted only when the stored
description is truthy (`"description" in command_data and command_data["description"]`). -/
def descLines (cd : CommandRecord) : List String :=
  if descTruthy cd.description then
    ["Description: " ++ cd.description.getD ""]
  else
    []

/-- The `Aliases:` line: only when the record has an `"aliases"` key holding a
non-empty list. -/
def aliasLines (cd : CommandRecord) : List String :=
  match cd.aliases with
  | some as => if as.isEmpty then [] else ["Aliases: " ++ String.intercalate ", " as]
  | none => []

/-- Header, type, description and aliases lines of `generate_help`, in source
order. -/
def headLines (nm : String) (cd : CommandRecord) : List String :=
  ["**" ++ nm ++ "**"] ++
    (match cd.kind with
     | .slash => ["Type: Slash Command"] ++ descLines cd
     | .message => ["Type: Message Command"] ++ descLines cd ++ aliasLines cd)

/-- `name in ('self', 'ctx', 'interaction')` — the loop's skip test. -/
def isCtxName (s : String) : Bool :=
  s == "self" || s == "ctx" || s == "interaction"

/-- One `- \x7bname\x7d: ...` argument line of `generate_help`. -/
def paramLine (st : Registry) (p : Param) : String :=
  let param_type := match p.annot with
    | some t => t.tyName
    | none => "Any"
  let default_str := match p.default with
    | none => "Required"
    | some d => "Optional (default: " ++ pyStr d ++ ")"
  let converter_note :=
    if assocMem st.converters (keyOfAnnot p.annot) then
      " (Custom converter available)"
    else ""
  "- `" ++ p.name ++ "`: " ++ param_type ++ " (" ++ default_str ++ ")" ++ converter_note

/-- The argument lines: every signature parameter, in declaration order,
skipping those named `self`, `ctx` or `interaction`. -/
def argLines (st : Registry) (cd : CommandRecord) : List String :=
  cd.params.filterMap fun p =>
    if isCtxName p.name then none else some (paramLine st p)

/-- All lines of a found command's help message: the `Arguments:` section is
appended when `len(params) > 1`. -/
def helpLines (st : Registry) (nm : String) (cd : CommandRecord) : List String :=
  headLines nm cd ++
    (if cd.params.length > 1 then "\nArguments:" :: argLines st cd else [])

/-- `generate_help(command_name)`. -/
def generate_help (st : Registry) (command_name : String) : String :=
  match assocLookup st.commands command_name with
  | none => "Command not found."
  | some cd => String.intercalate "\n" (helpLines st command_name cd)

/-- `Except.isOk`, spelled out: `true` exactly on a non-raising outcome. -/
def exceptIsOk {ε α : Type} : Except ε α → Bool
  | .ok _ => true
  | .error _ => false

/-- A converter-dict key that is a type object (what `register_converter`
stores, per its `Dict[Type, Callable]` declaration and docstring). -/
def keyIsType : DictKey → Bool
  | .typeKey _ => true
  | _ => false

/-- Well-formedness of a registry's converter table: every key is a type
object.  This holds of every state reachable through `register_converter`. -/
def convsWF (st : Registry) : Bool :=
  st.converters.all fun kv => keyIsType kv.1

/-- The signature parameters that survive the help loop's skip test. -/
def nonCtxParams (cd : CommandRecord) : List Param :=
  cd.params.filter fun p => !isCtxName p.name

/-- Spec-side (§4.4) converter note: present exactly when the DECLARED type
has a converter-table entry; an undeclared parameter never gets the note. -/
def specConverterNote (st : Registry) (p : Param) : String :=
  match p.annot with
  | some t =>
    if assocMem st.converters (.typeKey t) then " (Custom converter available)" else ""
  | none => ""

/-- Spec-side (§4.4) argument line: name, the declared type's name or `Any`
if undeclared, `Required` or `Optional (default: <value>)`, then the
converter note. -/
def specParamLine (st : Registry) (p : Param) : String :=
  "- `" ++ p.name ++ "`: " ++
    (match p.annot with
     | some t => t.tyName
     | none => "Any") ++
    " (" ++
    (match p.default with
     | none => "Required"
     | some d => "Optional (default: " ++ pyStr d ++ ")") ++
    ")" ++ specConverterNote st p

/-- The doubling `int` converter of the spec's worked example. -/
def doubleConv : Conv := fun v =>
  match v with
  | .int n => .ok (.int (2 * n))
  | _ => .error "converter applied to a non-int"

/-- A handler that reports the values it was called with, one send per value. -/
def recorder : Handler := fun vals => .ok (vals.map pyStr)

/-- A handler whose body always raises. -/
def failingHandler : Handler := fun _ => .error "boom"

/-- A custom error handler that replies with a tagged copy of the message. -/
def echoHandler : ErrHandler := fun e _ => .ok ["custom: " ++ e]

/-- A fresh `CommandCreator` state. -/
def emptyRegistry : Registry := ⟨[], [], none⟩

/-- Signature of the spec example's handler `(ctx, a: int, b: int)`. -/
def c1Params : List Param :=
  [⟨"interaction", some (.named "Interaction"), none⟩,
   ⟨"a", some .int, none⟩,
   ⟨"b", some .int, none⟩]

/-- Registry with the doubling converter registered for `int`. -/
def c1Registry : Registry := register_converter emptyRegistry .int doubleConv

/-- Signature `(ctx, a: int, b: int = 5)` used to exercise `generate_help`. -/
def c2Params : List Param :=
  [⟨"ctx", none, none⟩,
   ⟨"a", some .int, none⟩,
   ⟨"b", some .int, some (.int 5)⟩]

/-- Registry holding a registered message command named `add`. -/
def c2Registry : Registry :=
  message_command c1Registry "add" (some ["sum", "plus"]) (some "Adds") c2Params recorder

/-- The record `c2Registry` stores under `add`. -/
def c2Record : CommandRecord :=
  ⟨.message, some "Adds", some ["sum", "plus"], c2Params, recorder⟩

/-- A registry already holding an `add` record with aliases and description. -/
def c4St : Registry :=
  message_command emptyRegistry "add" (some ["sum"]) (some "old") [] recorder

/-- The old record stored in `c4St`. -/
def c4Old : CommandRecord := ⟨.message, some "old", some ["sum"], [], recorder⟩

/-- A registry with the echo error handler installed. -/
def c9St : Registry := set_error_handler emptyRegistry echoHandler

/-! ## Theorems -/

/-- Python dict assignment followed by lookup of the same key yields exactly
the newly assigned value. -/
theorem assocLookup_assocInsert_self {α β : Type} [DecidableEq α]
    (d : List (α × β)) (k : α) (v : β) :
    assocLookup (assocInsert d k v) k = some v := by
  induction d with
  | nil => simp [assocInsert, assocLookup]
  | cons hd tl ih =>
    obtain ⟨k', v'⟩ := hd
    by_cases h : k' = k
    · subst h
      simp [assocInsert, assocLookup]
    · simp [assocInsert, assocLookup, h, ih]

/-- A converter table whose keys are all type objects has no entry at the
`inspect.Parameter.empty` sentinel. -/
theorem assocMem_emptyKey_eq_false (convs : List (DictKey × Conv))
    (h : convs.all (fun kv => keyIsType kv.1) = true) :
    assocMem convs .emptyKey = false := by
  induction convs with
  | nil => rfl
  | cons hd tl ih =>
    obtain ⟨k, c⟩ := hd
    simp only [List.all_cons, Bool.and_eq_true] at h
    cases k with
    | typeKey t =>
      simpa [assocMem, assocLookup] using ih h.2
    | strKey s => simp [keyIsType] at h
    | emptyKey => simp [keyIsType] at h

/-- Over a well-formed converter table the source's argument line coincides
with the spec's §4.4 wording of it. -/
theorem paramLine_eq_specParamLine (st : Registry) (p : Param)
    (hwf : convsWF st = true) :
    paramLine st p = specParamLine st p := by
  obtain ⟨nm, an, df⟩ := p
  cases an with
  | some t => rfl
  | none =>
    have h := assocMem_emptyKey_eq_false st.converters hwf
    simp [paramLine, specParamLine, specConverterNote, keyOfAnnot, h]

/-- The skip-filterMap of the help loop is a filter followed by the spec's
line format. -/
theorem filterMap_skip_eq (st : Registry) (hwf : convsWF st = true) :
    ∀ l : List Param,
      (l.filterMap fun p => if isCtxName p.name then none else some (paramLine st p)) =
        (l.filter fun p => !isCtxName p.name).map (specParamLine st)
  | [] => rfl
  | p :: tl => by
    cases hc : isCtxName p.name <;>
      simp [hc, filterMap_skip_eq st hwf tl, paramLine_eq_specParamLine st p hwf]

/-- The `Arguments:` header is emitted on `len(params) > 1` exactly when the
schema (the parameters minus the leading context parameter) is non-empty. -/
theorem args_section_iff (ps : List Param) (xs : List String) :
    (if ps.length > 1 then "\nArguments:" :: xs else []) =
    (if ps.drop 1 = [] then [] else "\nArguments:" :: xs) := by
  rcases ps with _ | ⟨a, _ | ⟨b, tl⟩⟩
  · simp
  · simp
  · rw [if_pos (by simp), if_neg (by simp)]

/-- C1: the spec claims a bound parameter whose declared type has a converter
entry is replaced by `converter(value)`, so a doubling `int` converter turns
an invocation `(ctx, 3, 4)` of `(ctx, a: int, b: int)` into a handler call
`(ctx, 6, 8)`.  The code instead tests the parameter NAME for membership in
the type-keyed converter dict, so no conversion ever fires: the handler is
called with the raw `(ctx, 3, 4)`. -/
theorem c1_converter_never_applied :
    wrapper c1Registry c1Params recorder (.interaction false) [.int 3, .int 4] =
      .ok ["<context>", "3", "4"] ∧
    wrapper c1Registry c1Params recorder (.interaction false) [.int 3, .int 4] ≠
      .ok ["<context>", "6", "8"] := by
  refine ⟨rfl, fun h => ?_⟩
  have h2 : (Except.ok ["<context>", "3", "4"] : Except String (List String)) =
      .ok ["<context>", "6", "8"] := h
  injection h2 with h3
  exact absurd h3 (by decide)

/-- C2: for a registered command over a well-formed (type-keyed) converter
table, help output carries an `Arguments:` section exactly when the schema
(the parameters minus the leading context parameter) is non-empty, and the
listed argument lines are precisely the non-context parameters rendered with
name, declared type name or `Any`, `Required` / `Optional (default: <value>)`,
and the converter note exactly when the declared type has a converter entry. -/
theorem c2_generate_help_arguments (st : Registry) (nm : String) (cd : CommandRecord)
    (hfound : assocLookup st.commands nm = some cd) (hwf : convsWF st = true) :
    generate_help st nm =
      String.intercalate "\n" (headLines nm cd ++
        (if cd.params.drop 1 = [] then [] else "\nArguments:" :: argLines st cd)) ∧
    argLines st cd = (nonCtxParams cd).map (specParamLine st) := by
  constructor
  · unfold generate_help
    rw [hfound]
    show String.intercalate "\n" (headLines nm cd ++
        (if cd.params.length > 1 then "\nArguments:" :: argLines st cd else [])) = _
    rw [args_section_iff]
  · unfold argLines nonCtxParams
    exact filterMap_skip_eq st hwf cd.params

/-- C2 witness: instantiated at the registry `c2Registry` holding the message
command `add` with signature `(ctx, a: int, b: int = 5)`. -/
theorem c2_witness :
    generate_help c2Registry "add" =
      String.intercalate "\n" (headLines "add" c2Record ++
        (if c2Record.params.drop 1 = [] then []
         else "\nArguments:" :: argLines c2Registry c2Record)) ∧
    argLines c2Registry c2Record = (nonCtxParams c2Record).map (specParamLine c2Registry) :=
  c2_generate_help_arguments c2Registry "add" c2Record rfl rfl

/-- C3: a falsy (absent or empty) description makes `slash_command` raise
`ValueError` synchronously, before the decorator exists, and the observable
registry state after the failed call is the unchanged input state. -/
theorem c3_slash_description_required (st : Registry) (nm : String)
    (d : Option String) (ps : List Param) (f : Handler)
    (hd : descTruthy d = false) :
    slash_command st nm d ps f = .error "Description is required for slash commands." ∧
    slash_command_state st nm d ps f = st := by
  have h1 : slash_command st nm d ps f =
      .error "Description is required for slash commands." := by
    unfold slash_command
    rw [hd]
    exact rfl
  refine ⟨h1, ?_⟩
  unfold slash_command_state
  rw [h1]

/-- C3 witness: empty-string description on a fresh registry. -/
theorem c3_witness :
    slash_command emptyRegistry "add" (some "") [] recorder =
      .error "Description is required for slash commands." ∧
    slash_command_state emptyRegistry "add" (some "") [] recorder = emptyRegistry :=
  c3_slash_description_required emptyRegistry "add" (some "") [] recorder rfl

/-- C4: with a record already stored under `nm`, registering either kind of
command under `nm` stores the complete fresh record, and looking `nm` up
afterwards yields exactly that fresh record — nothing of the old record's
aliases or description survives (dict-assignment last-write-wins). -/
theorem c4_last_write_wins (st : Registry) (nm : String) (old : CommandRecord)
    (als : Option (List String)) (d : Option String) (ps : List Param) (f : Handler)
    (d2 : Option String) (ps2 : List Param) (f2 : Handler)
    (hold : assocLookup st.commands nm = some old)
    (hd2 : descTruthy d2 = true) :
    assocLookup (message_command st nm als d ps f).commands nm =
      some ⟨.message, d, some (als.getD []), ps, f⟩ ∧
    slash_command st nm d2 ps2 f2 =
      .ok { st with
            commands := assocInsert st.commands nm ⟨.slash, d2, none, ps2, f2⟩ } ∧
    assocLookup (assocInsert st.commands nm (⟨.slash, d2, none, ps2, f2⟩ : CommandRecord)) nm =
      some ⟨.slash, d2, none, ps2, f2⟩ := by
  refine ⟨assocLookup_assocInsert_self .., ?_, assocLookup_assocInsert_self ..⟩
  unfold slash_command
  rw [hd2]
  exact rfl

/-- C4 witness: `c4St` holds `add` as a message command with aliases `["sum"]`
and description `"old"`; re-registering `add` both ways replaces it wholesale. -/
theorem c4_witness :
    assocLookup (message_command c4St "add" none (some "new") [] recorder).commands "add" =
      some ⟨.message, some "new", some [], [], recorder⟩ ∧
    slash_command c4St "add" (some "d2") [] recorder =
      .ok { c4St with
            commands := assocInsert c4St.commands "add" ⟨.slash, some "d2", none, [], recorder⟩ } ∧
    assocLookup (assocInsert c4St.commands "add" (⟨.slash, some "d2", none, [], recorder⟩ : CommandRecord)) "add" =
      some ⟨.slash, some "d2", none, [], recorder⟩ :=
  c4_last_write_wins c4St "add" c4Old none (some "new") [] recorder
    (some "d2") [] recorder rfl rfl

/-- C5: with no custom handler installed, `_handle_error` replies exactly
`"Error: <message>"`, except for a reply-once interaction that has already
been replied to, where it sends nothing and raises nothing. -/
theorem c5_default_error_policy (st : Registry) (msg : String)
    (hnone : st.errorHandler = none) :
    handleError st msg (.interaction true) = .ok [] ∧
    handleError st msg (.interaction false) = .ok ["Error: " ++ msg] ∧
    handleError st msg .messageCtx = .ok ["Error: " ++ msg] := by
  unfold handleError
  rw [hnone]
  exact ⟨rfl, rfl, rfl⟩

/-- C5 witness: default policy on a fresh registry with message `"boom"`. -/
theorem c5_witness :
    handleError emptyRegistry "boom" (.interaction true) = .ok [] ∧
    handleError emptyRegistry "boom" (.interaction false) = .ok ["Error: boom"] ∧
    handleError emptyRegistry "boom" .messageCtx = .ok ["Error: boom"] :=
  c5_default_error_policy emptyRegistry "boom" rfl

/-- C6: whenever the error policy itself succeeds on the given context, the
generated wrapper completes without raising, whatever binding, conversion or
the handler body did — no failure escapes to the framework's dispatch loop. -/
theorem c6_no_error_escapes (st : Registry) (ps : List Param) (f : Handler)
    (ctx : Ctx) (args : List PyVal)
    (hpolicy : ∀ e, exceptIsOk (handleError st e ctx) = true) :
    exceptIsOk (wrapper st ps f ctx args) = true := by
  unfold wrapper
  cases h : runInvocation st ps f ctx args with
  | error e => exact hpolicy e
  | ok sends => rfl

/-- C6 witness: a zero-parameter signature makes binding itself fail (the
context argument cannot be matched), yet the wrapper still returns normally
under the default policy. -/
theorem c6_witness :
    exceptIsOk (wrapper emptyRegistry [] failingHandler .messageCtx []) = true :=
  c6_no_error_escapes emptyRegistry [] failingHandler .messageCtx []
    (fun _ => rfl)

/-- C7: `set_error_handler` overwrites the single error-handler slot, and
with a custom handler installed `_handle_error` is exactly that handler's
own outcome — in particular a failure the handler raises is not re-caught
but becomes the outcome of the error-handling path. -/
theorem c7_set_error_handler (st : Registry) (h1 h2 : ErrHandler)
    (msg : String) (ctx : Ctx) :
    (set_error_handler (set_error_handler st h1) h2).errorHandler = some h2 ∧
    handleError (set_error_handler st h2) msg ctx = h2 msg ctx :=
  ⟨rfl, rfl⟩

/-- C8: a name absent from the command map makes `generate_help` return the
literal `"Command not found."`. -/
theorem c8_unknown_command (st : Registry) (nm : String)
    (h : assocLookup st.commands nm = none) :
    generate_help st nm = "Command not found." := by
  unfold generate_help
  rw [h]

/-- C8 witness: a fresh registry knows no command `nope`. -/
theorem c8_witness : generate_help emptyRegistry "nope" = "Command not found." :=
  c8_unknown_command emptyRegistry "nope" rfl

/-- C9: with a custom handler installed, `_handle_error` invokes it for an
interaction context of either `is_done` state — the double-reply suppression
never applies to a custom handler. -/
theorem c9_custom_handler_unconditional (st : Registry) (h : ErrHandler)
    (msg : String) (b : Bool) (hset : st.errorHandler = some h) :
    handleError st msg (.interaction b) = h msg (.interaction b) := by
  unfold handleError
  rw [hset]

/-- C9 witness: the echo handler runs even though the interaction has already
been replied to. -/
theorem c9_witness :
    handleError c9St "boom" (.interaction true) = echoHandler "boom" (.interaction true) :=
  c9_custom_handler_unconditional c9St echoHandler "boom" true rfl

/-- C10: a message command registers fine with an empty-string description
(while the same description makes `slash_command` raise), and the stored
record's truthiness-based description check suppresses the `Description:`
line of its help output. -/
theorem c10_message_empty_description (st : Registry) (nm : String)
    (als : Option (List String)) (ps : List Param) (f : Handler) :
    assocLookup (message_command st nm als (some "") ps f).commands nm =
      some ⟨.message, some "", some (als.getD []), ps, f⟩ ∧
    descLines ⟨.message, some "", some (als.getD []), ps, f⟩ = [] ∧
    headLines nm ⟨.message, some "", some (als.getD []), ps, f⟩ =
      ["**" ++ nm ++ "**", "Type: Message Command"] ++
        aliasLines ⟨.message, some "", some (als.getD []), ps, f⟩ ∧
    slash_command st nm (some "") ps f =
      .error "Description is required for slash commands." :=
  ⟨assocLookup_assocInsert_self .., rfl, rfl, rfl⟩

end Slash
